import Mathlib

/-!
Verification of the event-service layer of the fast_api_project repository.

The repository's route layer (`src/v0/events.py`) is embedded directly.
The relational CRUD layer (`EventCRUD`, module `crud`) is not part of the
source tree that is available, so its operations are modelled from the
specification, as marked on each definition.

Identifiers (UUIDs in the source) are modelled as natural numbers and
timestamps as strings; neither claim depends on their internal structure.
-/

/-- A Person wire object (module `api_models`): an id and a name. -/
structure Person where
  id : Nat
  name : String
deriving DecidableEq, Repr

/-- An Event wire object (module `api_models`): id, title, description,
time, and an embedded list of Person representations. -/
structure Event where
  id : Nat
  title : String
  description : String
  time : String
  persons : List Person
deriving DecidableEq, Repr

/-- A persisted Event row in the relational store: scalar fields plus the
`cancelled` boolean, which defaults to `false` at creation. -/
structure DBEvent where
  id : Nat
  title : String
  description : String
  time : String
  cancelled : Bool
deriving DecidableEq, Repr

/-- The relational store: Person rows, Event rows, the Event-Person
association table (pairs of event id and person id), and the counter from
which fresh event ids are assigned when the caller supplies none. -/
structure Store where
  persons : List Person
  events : List DBEvent
  assoc : List (Nat × Nat)
  nextId : Nat
deriving DecidableEq, Repr

/-- Resolve a Person reference by id against the store. -/
def resolvePerson (s : Store) (pid : Nat) : Option Person :=
  s.persons.find? (fun q => q.id == pid)

/-- Look up an Event row by id. -/
def lookupEvent (s : Store) (eid : Nat) : Option DBEvent :=
  s.events.find? (fun r => r.id == eid)

/-- Resolve every supplied Person reference by id; `none` as soon as any
referenced Person does not exist. -/
def resolveAll (s : Store) : List Person → Option (List Person)
  | [] => some []
  | p :: ps =>
    match resolvePerson s p.id with
    | none => none
    | some q =>
      match resolveAll s ps with
      | none => none
      | some qs => some (q :: qs)

/-- Resolve a list of raw person ids; `none` as soon as any id does not
exist. -/
def resolveAllIds (s : Store) : List Nat → Option (List Person)
  | [] => some []
  | pid :: rest =>
    match resolvePerson s pid with
    | none => none
    | some q =>
      match resolveAllIds s rest with
      | none => none
      | some qs => some (q :: qs)

namespace EventCRUD

/-- Modelled from the spec: `EventCRUD.create_without_persons` (module
`crud`, absent from the available source). Persists an Event row with the
caller-supplied id, an empty association set and `cancelled = false`, and
returns the full entity; always succeeds. -/
def create_without_persons (s : Store) (id : Nat) (title description time : String) :
    Event × Store :=
  (⟨id, title, description, time, []⟩,
   { s with events := s.events ++ [⟨id, title, description, time, false⟩] })

/-- Modelled from the spec: `EventCRUD.create_with_persons` (module `crud`,
absent from the available source). Resolves every supplied Person by id; if
any is missing the whole operation aborts with `none` and the store is
untouched; otherwise one Event row with a freshly assigned id and its
association rows are persisted in one step. -/
def create_with_persons (s : Store) (title description time : String)
    (persons : List Person) : Option Event × Store :=
  match resolveAll s persons with
  | none => (none, s)
  | some resolved =>
    let eid := s.nextId
    (some ⟨eid, title, description, time, resolved⟩,
     { s with
        events := s.events ++ [⟨eid, title, description, time, false⟩],
        assoc := s.assoc ++ resolved.map (fun q => (eid, q.id)),
        nextId := s.nextId + 1 })

/-- Modelled from the spec: `EventCRUD.get_persons_from_event` (module
`crud`, absent from the available source). The resolved Person set of an
Event, read off the association table. -/
def get_persons_from_event (s : Store) (eid : Nat) : List Person :=
  (s.assoc.filter (fun pr => pr.1 == eid)).filterMap (fun pr => resolvePerson s pr.2)

/-- Modelled from the spec: `EventCRUD.read_by_id` (module `crud`, absent
from the available source). Fetches the Event together with its resolved
Person set; `none` when the id does not exist. -/
def read_by_id (s : Store) (eid : Nat) : Option Event :=
  match lookupEvent s eid with
  | none => none
  | some row =>
    some ⟨row.id, row.title, row.description, row.time, get_persons_from_event s eid⟩

/-- Modelled from the spec: `EventCRUD.delete_by_id` (module `crud`, absent
from the available source). Removes the Event row and its association rows
and returns the deleted snapshot; `none` when the id does not exist. -/
def delete_by_id (s : Store) (eid : Nat) : Option Event × Store :=
  match read_by_id s eid with
  | none => (none, s)
  | some ev =>
    (some ev,
     { s with
        events := s.events.filter (fun r => r.id != eid),
        assoc := s.assoc.filter (fun pr => pr.1 != eid) })

/-- Modelled from the spec: `EventCRUD.add_people_to_event` (module `crud`,
absent from the available source). Validates that the Event and every
person id exist; on any failure nothing is changed and the NotFound signal
`none` is returned as a value; on success each absent association is
inserted (union semantics) and the refreshed Event is returned. -/
def add_people_to_event (s : Store) (pids : List Nat) (eid : Nat) :
    Option Event × Store :=
  match lookupEvent s eid with
  | none => (none, s)
  | some _ =>
    match resolveAllIds s pids with
    | none => (none, s)
    | some _ =>
      let s' : Store :=
        { s with
           assoc := pids.foldl
             (fun a pid => if (eid, pid) ∈ a then a else a ++ [(eid, pid)]) s.assoc }
      (read_by_id s' eid, s')

end EventCRUD

/-- An HTTP response produced by a route handler: status code, optional
Event body (a `none` body is JSON null), and the optional `detail` field of
an error payload. -/
structure Resp where
  code : Nat
  body : Option Event
  detail : Option String
deriving DecidableEq, Repr

/-- Route handler `create_event_without_persons` (src/v0/events.py lines
35-44): POST /events/create_no_persons, status 201, passes the
caller-supplied id through to the creation call and returns its result. -/
def createEventWithoutPersons (event : Event) (s : Store) : Resp × Store :=
  let r := EventCRUD.create_without_persons s event.id event.title event.description event.time
  (⟨201, some r.1, none⟩, r.2)

/-- Route handler `create_event_with_persons` (src/v0/events.py lines
47-70): POST /events/create_with_persons. On a `None` result from the CRUD
layer it returns a 404 JSON response with detail "Person not found";
otherwise a 201 response whose body is rebuilt from the request payload
(the caller-supplied id and the persons list echoed verbatim). The
caller-supplied `event.id` is never passed to the creation call. -/
def createEventWithPersons (event : Event) (persons : List Person) (s : Store) :
    Resp × Store :=
  match EventCRUD.create_with_persons s event.title event.description event.time persons with
  | (none, s') => (⟨404, none, some "Person not found"⟩, s')
  | (some _, s') =>
    (⟨201, some ⟨event.id, event.title, event.description, event.time, persons⟩, none⟩, s')

/-- Route handler `get_event` (src/v0/events.py lines 73-84): GET
/events/event_id, 200 with the Event when found, otherwise a 404 JSON
response with detail "Person not found". -/
def getEvent (s : Store) (eid : Nat) : Resp :=
  match EventCRUD.read_by_id s eid with
  | some ev => ⟨200, some ev, none⟩
  | none => ⟨404, none, some "Person not found"⟩

/-- Route handler `update_event` (src/v0/events.py lines 87-92): PUT
/events/event_id; the body unconditionally raises NotImplementedError and
never touches the store (it takes no database dependency). -/
def updateEvent (eventId : Nat) (event : Event) (s : Store) :
    Except String Resp × Store :=
  (Except.error "NotImplementedError", s)

/-- Route handler `add_persons_to_event` (src/v0/events.py lines 95-102):
PUT /events/event_id/add_persons, declared status 200; returns whatever the
CRUD call returns as the body, with no not-found check of its own. -/
def addPersonsToEvent (eventId : Nat) (personIds : List Nat) (s : Store) :
    Resp × Store :=
  let r := EventCRUD.add_people_to_event s personIds eventId
  (⟨200, r.1, none⟩, r.2)

/-- Route handler `delete_event` (src/v0/events.py lines 105-116): DELETE
/events/event_id, 200 with the deleted snapshot when found, otherwise a 404
JSON response with detail "Person not found". -/
def deleteEvent (s : Store) (eid : Nat) : Resp × Store :=
  match EventCRUD.delete_by_id s eid with
  | (some ev, s') => (⟨200, some ev, none⟩, s')
  | (none, s') => (⟨404, none, some "Person not found"⟩, s')

/-- Route handler `flip_cancel_event` (src/v0/events.py lines 119-124):
PATCH /events/event_id/cancel, declared status 200; the body is a bare
`return` and the handler takes no database dependency, so it returns a null
body and leaves the store untouched. -/
def flipCancelEvent (eventId : Nat) (s : Store) : Resp × Store :=
  (⟨200, none, none⟩, s)

/-! ## Helper lemmas -/

/-- Resolution of a person list fails as soon as one member is missing. -/
theorem resolveAll_eq_none_of_missing (s : Store) (p : Person) (ps : List Person)
    (hmem : p ∈ ps) (hmiss : resolvePerson s p.id = none) : resolveAll s ps = none := by
  induction ps with
  | nil => cases hmem
  | cons q rest ih =>
    rcases List.mem_cons.mp hmem with h | h
    · subst h; simp [resolveAll, hmiss]
    · cases hq : resolvePerson s q.id with
      | none => simp [resolveAll, hq]
      | some r => simp [resolveAll, hq, ih h]

/-- The store that results from adding one person id to an existing event:
the association pair is appended exactly when it is absent. -/
theorem add_people_state (s : Store) (eid pid : Nat) (row : DBEvent) (q : Person)
    (he : lookupEvent s eid = some row) (hp : resolvePerson s pid = some q) :
    (EventCRUD.add_people_to_event s [pid] eid).2 =
      { s with assoc :=
          if (eid, pid) ∈ s.assoc then s.assoc else s.assoc ++ [(eid, pid)] } := by
  simp [EventCRUD.add_people_to_event, resolveAllIds, he, hp]

/-! ## Claims -/

/-- C1: if the persons list of a create_with_persons call contains a Person
whose id does not resolve to an existing Person, the call returns the 404
NotFound response and the store is returned unchanged: no Event row and no
association row is persisted. -/
theorem c1_create_with_persons_atomic (event : Event) (persons : List Person)
    (s : Store) (p : Person) (hmem : p ∈ persons)
    (hmiss : resolvePerson s p.id = none) :
    createEventWithPersons event persons s =
      (⟨404, none, some "Person not found"⟩, s) := by
  simp [createEventWithPersons, EventCRUD.create_with_persons,
        resolveAll_eq_none_of_missing s p persons hmem hmiss]

/-- C1 witness: a concrete call whose single supplied Person is absent from
the store yields the 404 response and an unchanged store. -/
theorem c1_create_with_persons_atomic_witness :
    (⟨7, "bob"⟩ : Person) ∈ [(⟨7, "bob"⟩ : Person)] ∧
    resolvePerson ⟨[], [], [], 0⟩ 7 = none ∧
    createEventWithPersons ⟨5, "t", "d", "m", []⟩ [⟨7, "bob"⟩] ⟨[], [], [], 0⟩ =
      (⟨404, none, some "Person not found"⟩, ⟨[], [], [], 0⟩) :=
  ⟨List.mem_singleton.mpr rfl, rfl,
   c1_create_with_persons_atomic ⟨5, "t", "d", "m", []⟩ [⟨7, "bob"⟩] ⟨[], [], [], 0⟩
     ⟨7, "bob"⟩ (List.mem_singleton.mpr rfl) rfl⟩

/-- C2 (failing behaviour): on a store with no Event row, the add_persons
route returns the NotFound value as a null body under status 200 — not a
404 response — though the store is indeed left unchanged. -/
theorem c2_add_persons_missing_event_returns_200 :
    addPersonsToEvent 1 [2] ⟨[], [], [], 0⟩ =
      (⟨200, none, none⟩, ⟨[], [], [], 0⟩) := rfl

/-- C3 (failing behaviour): the cancel route is a stub: it answers 200 even
for an id with no Event row, and on a store holding an uncancelled Event it
leaves the store, hence the cancelled flag, untouched. -/
theorem c3_cancel_route_is_noop :
    (flipCancelEvent 99 ⟨[], [⟨1, "t", "d", "m", false⟩], [], 2⟩).1.code = 200 ∧
    (flipCancelEvent 1 ⟨[], [⟨1, "t", "d", "m", false⟩], [], 2⟩).2 =
      ⟨[], [⟨1, "t", "d", "m", false⟩], [], 2⟩ ∧
    lookupEvent (flipCancelEvent 1 ⟨[], [⟨1, "t", "d", "m", false⟩], [], 2⟩).2 1 =
      some ⟨1, "t", "d", "m", false⟩ :=
  ⟨rfl, rfl, rfl⟩

/-- C4: applying the cancel route twice to an existing Event leaves its
row, in particular its cancelled flag, with its pre-toggle value. -/
theorem c4_cancel_toggle_involution (s : Store) (eid : Nat) (row : DBEvent)
    (h : lookupEvent s eid = some row) :
    lookupEvent (flipCancelEvent eid (flipCancelEvent eid s).2).2 eid = some row ∧
    (lookupEvent (flipCancelEvent eid (flipCancelEvent eid s).2).2 eid).map
        DBEvent.cancelled = some row.cancelled := by
  refine ⟨h, ?_⟩
  show (lookupEvent s eid).map DBEvent.cancelled = some row.cancelled
  rw [h, Option.map_some']

/-- C4 witness: the double toggle evaluated on a concrete store with one
existing Event. -/
theorem c4_cancel_toggle_involution_witness :
    lookupEvent ⟨[], [⟨1, "t", "d", "m", true⟩], [], 0⟩ 1 =
      some ⟨1, "t", "d", "m", true⟩ ∧
    lookupEvent
        (flipCancelEvent 1
          (flipCancelEvent 1 ⟨[], [⟨1, "t", "d", "m", true⟩], [], 0⟩).2).2 1 =
      some ⟨1, "t", "d", "m", true⟩ :=
  ⟨rfl,
   (c4_cancel_toggle_involution ⟨[], [⟨1, "t", "d", "m", true⟩], [], 0⟩ 1
     ⟨1, "t", "d", "m", true⟩ rfl).1⟩

/-- C5: an Event created through the no-persons route under a fresh id is
returned by a subsequent read with exactly the caller-supplied id, title,
description and time, and an empty person set. -/
theorem c5_create_read_round_trip (event : Event) (s : Store)
    (hid : lookupEvent s event.id = none)
    (hassoc : ∀ pr ∈ s.assoc, pr.1 ≠ event.id) :
    (createEventWithoutPersons event s).1 =
      ⟨201, some ⟨event.id, event.title, event.description, event.time, []⟩, none⟩ ∧
    EventCRUD.read_by_id (createEventWithoutPersons event s).2 event.id =
      some ⟨event.id, event.title, event.description, event.time, []⟩ := by
  have hid' : s.events.find? (fun r => r.id == event.id) = none := hid
  have hfilter : s.assoc.filter (fun pr => pr.1 == event.id) = [] :=
    List.filter_eq_nil_iff.mpr (by intro a ha; simpa using hassoc a ha)
  refine ⟨rfl, ?_⟩
  simp [createEventWithoutPersons, EventCRUD.create_without_persons,
        EventCRUD.read_by_id, lookupEvent, List.find?_append, hid', List.find?,
        EventCRUD.get_persons_from_event, hfilter]

/-- C5 witness: round trip on the empty store at id 3. -/
theorem c5_create_read_round_trip_witness :
    lookupEvent ⟨[], [], [], 0⟩ 3 = none ∧
    EventCRUD.read_by_id
        (createEventWithoutPersons ⟨3, "a", "b", "c", []⟩ ⟨[], [], [], 0⟩).2 3 =
      some ⟨3, "a", "b", "c", []⟩ :=
  ⟨rfl,
   (c5_create_read_round_trip ⟨3, "a", "b", "c", []⟩ ⟨[], [], [], 0⟩ rfl
     (by intro pr h; cases h)).2⟩

/-- C6: adding the same existing person to the same existing event twice
leaves the store exactly as after the first addition — the association set
is a mathematical set, never holding a duplicate pair. -/
theorem c6_add_person_idempotent (s : Store) (eid pid : Nat) (row : DBEvent)
    (q : Person) (he : lookupEvent s eid = some row)
    (hp : resolvePerson s pid = some q) :
    (addPersonsToEvent eid [pid] (addPersonsToEvent eid [pid] s).2).2 =
      (addPersonsToEvent eid [pid] s).2 := by
  have hmem : (eid, pid) ∈
      (if (eid, pid) ∈ s.assoc then s.assoc else s.assoc ++ [(eid, pid)]) := by
    by_cases h : (eid, pid) ∈ s.assoc
    · simp [h]
    · simp [h]
  show (EventCRUD.add_people_to_event
          (EventCRUD.add_people_to_event s [pid] eid).2 [pid] eid).2 =
        (EventCRUD.add_people_to_event s [pid] eid).2
  rw [add_people_state s eid pid row q he hp]
  rw [add_people_state _ eid pid row q (by exact he) (by exact hp)]
  simp [hmem]

/-- C6 witness: a concrete store with one event and one person; the second
identical addition changes nothing. -/
theorem c6_add_person_idempotent_witness :
    lookupEvent ⟨[⟨2, "p"⟩], [⟨1, "t", "d", "m", false⟩], [], 0⟩ 1 =
      some ⟨1, "t", "d", "m", false⟩ ∧
    resolvePerson ⟨[⟨2, "p"⟩], [⟨1, "t", "d", "m", false⟩], [], 0⟩ 2 =
      some ⟨2, "p"⟩ ∧
    (addPersonsToEvent 1 [2]
        (addPersonsToEvent 1 [2] ⟨[⟨2, "p"⟩], [⟨1, "t", "d", "m", false⟩], [], 0⟩).2).2 =
      (addPersonsToEvent 1 [2] ⟨[⟨2, "p"⟩], [⟨1, "t", "d", "m", false⟩], [], 0⟩).2 :=
  ⟨rfl, rfl,
   c6_add_person_idempotent ⟨[⟨2, "p"⟩], [⟨1, "t", "d", "m", false⟩], [], 0⟩ 1 2
     ⟨1, "t", "d", "m", false⟩ ⟨2, "p"⟩ rfl rfl⟩

/-- C7: on an id with no Event row, both the get route and the delete route
answer the 404 NotFound response (never a default value under success), and
the delete route leaves the store unchanged; on an existing id, the delete
route answers 200 with the deleted snapshot and afterwards the Event row is
gone. -/
theorem c7_get_delete_not_found (s : Store) (eid : Nat) :
    (lookupEvent s eid = none →
      getEvent s eid = ⟨404, none, some "Person not found"⟩ ∧
      deleteEvent s eid = (⟨404, none, some "Person not found"⟩, s)) ∧
    (∀ ev, EventCRUD.read_by_id s eid = some ev →
      (deleteEvent s eid).1 = ⟨200, some ev, none⟩ ∧
      lookupEvent (deleteEvent s eid).2 eid = none) := by
  constructor
  · intro h
    constructor
    · simp [getEvent, EventCRUD.read_by_id, h]
    · simp [deleteEvent, EventCRUD.delete_by_id, EventCRUD.read_by_id, h]
  · intro ev hev
    constructor
    · simp [deleteEvent, EventCRUD.delete_by_id, hev]
    · simp [deleteEvent, EventCRUD.delete_by_id, hev, lookupEvent,
            List.find?_eq_none, List.mem_filter]

/-- C7 witness: a concrete store with one Event: id 9 is reported NotFound
by get and delete, and deleting id 1 returns the snapshot and removes the
row. -/
theorem c7_get_delete_not_found_witness :
    (getEvent ⟨[], [⟨1, "t", "d", "m", false⟩], [], 0⟩ 9 =
        ⟨404, none, some "Person not found"⟩ ∧
      deleteEvent ⟨[], [⟨1, "t", "d", "m", false⟩], [], 0⟩ 9 =
        (⟨404, none, some "Person not found"⟩,
         ⟨[], [⟨1, "t", "d", "m", false⟩], [], 0⟩)) ∧
    ((deleteEvent ⟨[], [⟨1, "t", "d", "m", false⟩], [], 0⟩ 1).1 =
        ⟨200, some ⟨1, "t", "d", "m", []⟩, none⟩ ∧
      lookupEvent (deleteEvent ⟨[], [⟨1, "t", "d", "m", false⟩], [], 0⟩ 1).2 1 =
        none) :=
  ⟨(c7_get_delete_not_found ⟨[], [⟨1, "t", "d", "m", false⟩], [], 0⟩ 9).1 rfl,
   (c7_get_delete_not_found ⟨[], [⟨1, "t", "d", "m", false⟩], [], 0⟩ 1).2
     ⟨1, "t", "d", "m", []⟩ rfl⟩

/-- C8: for every input, the update route returns the NotImplementedError
signal raised by its body and performs no state change. -/
theorem c8_update_not_implemented (eventId : Nat) (event : Event) (s : Store) :
    updateEvent eventId event s = (Except.error "NotImplementedError", s) := rfl

/-- C9: every 404 response an event route produces — person-resolution
failure in create_with_persons, event lookup failure in get, event lookup
failure in delete — carries the one detail message "Person not found", so
the causes are indistinguishable at the signal level. -/
theorem c9_uniform_not_found_detail (s : Store) (event : Event)
    (persons : List Person) (eid : Nat) :
    ((createEventWithPersons event persons s).1.code = 404 →
      (createEventWithPersons event persons s).1.detail = some "Person not found") ∧
    ((getEvent s eid).code = 404 →
      (getEvent s eid).detail = some "Person not found") ∧
    ((deleteEvent s eid).1.code = 404 →
      (deleteEvent s eid).1.detail = some "Person not found") := by
  refine ⟨?_, ?_, ?_⟩
  · cases hr : EventCRUD.create_with_persons s event.title event.description
        event.time persons with
    | mk r t => cases r <;> simp [createEventWithPersons, hr]
  · cases hr : EventCRUD.read_by_id s eid <;> simp [getEvent, hr]
  · cases hr : EventCRUD.delete_by_id s eid with
    | mk r t => cases r <;> simp [deleteEvent, hr]

/-- C9 witness: concrete 404s from each of the three routes all carry the
detail "Person not found". -/
theorem c9_uniform_not_found_detail_witness :
    (createEventWithPersons ⟨5, "t", "d", "m", []⟩ [⟨7, "x"⟩] ⟨[], [], [], 0⟩).1.detail =
      some "Person not found" ∧
    (getEvent ⟨[], [], [], 0⟩ 3).detail = some "Person not found" ∧
    (deleteEvent ⟨[], [], [], 0⟩ 3).1.detail = some "Person not found" :=
  ⟨(c9_uniform_not_found_detail ⟨[], [], [], 0⟩ ⟨5, "t", "d", "m", []⟩ [⟨7, "x"⟩] 3).1 rfl,
   (c9_uniform_not_found_detail ⟨[], [], [], 0⟩ ⟨5, "t", "d", "m", []⟩ [⟨7, "x"⟩] 3).2.1 rfl,
   (c9_uniform_not_found_detail ⟨[], [], [], 0⟩ ⟨5, "t", "d", "m", []⟩ [⟨7, "x"⟩] 3).2.2 rfl⟩

/-- C10: whenever every supplied Person resolves, the create_with_persons
route answers 201 with a body rebuilt from the request payload — the
caller-supplied event id and the persons list echoed verbatim — while the
Event row actually persisted carries the store-assigned fresh id
`s.nextId`, to which the caller-supplied id is never passed. -/
theorem c10_response_from_payload (event : Event) (persons : List Person)
    (s : Store) (resolved : List Person)
    (h : resolveAll s persons = some resolved) :
    (createEventWithPersons event persons s).1 =
      ⟨201, some ⟨event.id, event.title, event.description, event.time, persons⟩, none⟩ ∧
    ((createEventWithPersons event persons s).2).events =
      s.events ++ [⟨s.nextId, event.title, event.description, event.time, false⟩] := by
  simp [createEventWithPersons, EventCRUD.create_with_persons, h]

/-- C10 witness: with caller-supplied id 5 and fresh-id counter 0, the
response body carries id 5 while the stored row carries id 0 — the two ids
differ. -/
theorem c10_response_from_payload_witness :
    resolveAll ⟨[], [], [], 0⟩ [] = some [] ∧
    ((createEventWithPersons ⟨5, "t", "d", "m", []⟩ [] ⟨[], [], [], 0⟩).1 =
        ⟨201, some ⟨5, "t", "d", "m", []⟩, none⟩ ∧
      ((createEventWithPersons ⟨5, "t", "d", "m", []⟩ [] ⟨[], [], [], 0⟩).2).events =
        [] ++ [⟨0, "t", "d", "m", false⟩]) ∧
    (5 : Nat) ≠ 0 :=
  ⟨rfl,
   c10_response_from_payload ⟨5, "t", "d", "m", []⟩ [] ⟨[], [], [], 0⟩ [] rfl,
   by decide⟩
